import Mathlib

/-!
Shallow embedding of the `cryptor` Go package (keystore V4 decryption).

Bytes are modelled as `Nat` (each < 256 where produced by the code), byte
slices as `List Nat`, Go strings as Lean `String`.  Go `nil` pointers and
absent JSON sub-records are `Option`.  A Go `(value, error)` return together
with the possibility of a runtime panic is modelled by `Outcome`.

External libraries that the repository calls are handled as follows:
  * `encoding/hex` (`hex.DecodeString`) is modelled concretely (`hexDecode?`),
  * `crypto/sha256` is modelled concretely (`sha256`, FIPS 180-4),
  * `crypto/aes` + `crypto/cipher`'s CTR mode are modelled by an abstract
    16-byte block-encryption function together with a concrete big-endian
    counter-mode keystream (`ctrXorKeyStream`); `cipher.NewCTR`'s panic on an
    IV whose length differs from the block size (16) is modelled explicitly,
  * `golang.org/x/crypto/scrypt` and `.../pbkdf2` are abstract parameters
    (fields of `Crypto`), since no claim depends on their internals,
  * the passphrase normalizers `normPassphrase` / `altNormPassphrase` live in
    a repository file outside `src/`; no claim depends on what they compute,
    so `Decrypt` takes them as opaque-function parameters
    `String → List Nat` (the Go composition `[]byte(normPassphrase(p))`).
-/

namespace Cryptor

/-- Go runtime panic message for a nil-pointer dereference. -/
def nilDerefMsg : String := "runtime error: invalid memory address or nil pointer dereference"

/-- Panic message of `cipher.NewCTR` when the IV length is not the block size. -/
def ctrPanicMsg : String := "cipher.NewCTR: IV length must equal block size"

/-- The typed errors the Go code can return (each constructor corresponds to
one `errors.New`/`fmt.Errorf` site in `Decrypt`/`decryptNorm`). -/
inductive KsErr where
  | noData                            -- "no data supplied"
  | parseFailed                       -- "failed to parse keystore"
  | noChecksum                        -- "no checksum"
  | noCipher                          -- "no cipher"
  | invalidKDFSalt                    -- "invalid KDF salt"
  | unsupportedPRF (prf : String)     -- "unsupported PBKDF2 PRF %q"
  | unsupportedKDF (fn : String)      -- "unsupported KDF %q"
  | invalidKDFParams                  -- "invalid KDF parameters"
  | decryptionKeyTooShort             -- "decryption key must be at least 32 bytes"
  | invalidCipherMessage              -- "invalid cipher message"
  | invalidChecksumMessage            -- "invalid checksum message"
  | invalidChecksum                   -- "invalid checksum"
  | invalidIV                         -- "invalid IV"
  | unsupportedCipher (fn : String)   -- "unsupported cipher %q"
deriving DecidableEq, Repr

/-- Result of a Go call that may return a value, return an error, or panic. -/
inductive Outcome (α : Type) where
  | ok (val : α)
  | err (e : KsErr)
  | panicked (msg : String)
deriving DecidableEq, Repr

/-- `ksKDFParams` (pointer target of `ksKDF.Params`). Go `int` is `Int`. -/
structure ksKDFParams where
  Salt : String
  DKLen : Int
  N : Int
  P : Int
  R : Int
  C : Int
  PRF : String
deriving DecidableEq, Repr

/-- `ksKDF`; `Params` is a Go pointer, hence `Option`. -/
structure ksKDF where
  Function : String
  Params : Option ksKDFParams
  Message : String
deriving DecidableEq, Repr

/-- `ksChecksum`; its `Params` field (`map[string]interface{}`) is never read
by the decryption path and is omitted. -/
structure ksChecksum where
  Function : String
  Message : String
deriving DecidableEq, Repr

/-- `ksCipherParams` (pointer target of `ksCipher.Params`). -/
structure ksCipherParams where
  IV : String
deriving DecidableEq, Repr

/-- `ksCipher`; `Params` is a Go pointer, hence `Option`. -/
structure ksCipher where
  Function : String
  Params : Option ksCipherParams
  Message : String
deriving DecidableEq, Repr

/-- `keystoreV4`: the parsed record; all three sub-records are pointers. -/
structure keystoreV4 where
  KDF : Option ksKDF
  Checksum : Option ksChecksum
  Cipher : Option ksCipher
deriving DecidableEq, Repr

/-! ## encoding/hex -/

/-- Value of one hex digit, as `hex.DecodeString` accepts it (both cases). -/
def hexDigitVal? (c : Char) : Option Nat :=
  if '0' ≤ c ∧ c ≤ '9' then some (c.toNat - 48)
  else if 'a' ≤ c ∧ c ≤ 'f' then some (c.toNat - 87)
  else if 'A' ≤ c ∧ c ≤ 'F' then some (c.toNat - 55)
  else none

/-- Decode a hex character list two digits at a time; odd length or a
non-hex character is an error, as in `hex.DecodeString`. -/
def hexDecodeChars : List Char → Option (List Nat)
  | [] => some []
  | [_] => none
  | c1 :: c2 :: rest => do
    let hi ← hexDigitVal? c1
    let lo ← hexDigitVal? c2
    let tl ← hexDecodeChars rest
    pure ((hi * 16 + lo) :: tl)

/-- Model of `hex.DecodeString` (`none` = the Go error case). -/
def hexDecode? (s : String) : Option (List Nat) :=
  hexDecodeChars s.data

/-- One byte to two lowercase hex digits (model of `hex.EncodeToString`,
used only to build concrete records in proofs). -/
def hexEncodeByte (b : Nat) : List Char :=
  [if b / 16 % 16 < 10 then Char.ofNat (48 + b / 16 % 16) else Char.ofNat (87 + b / 16 % 16),
   if b % 16 < 10 then Char.ofNat (48 + b % 16) else Char.ofNat (87 + b % 16)]

/-- Bytes to a lowercase hex string. -/
def hexEncode (l : List Nat) : String :=
  ⟨(l.map hexEncodeByte).flatten⟩

/-! ## crypto/sha256 (FIPS 180-4) -/

/-- Truncate to a 32-bit word. -/
def w32 (n : Nat) : Nat := n % 4294967296

/-- Right rotation of a 32-bit word by `n` (0 < n < 32). -/
def rotr32 (x n : Nat) : Nat := w32 ((x <<< (32 - n)) ||| (x >>> n))

/-- SHA-256 Σ₀. -/
def bSig0 (x : Nat) : Nat := Nat.xor (rotr32 x 2) (Nat.xor (rotr32 x 13) (rotr32 x 22))

/-- SHA-256 Σ₁. -/
def bSig1 (x : Nat) : Nat := Nat.xor (rotr32 x 6) (Nat.xor (rotr32 x 11) (rotr32 x 25))

/-- SHA-256 σ₀. -/
def sSig0 (x : Nat) : Nat := Nat.xor (rotr32 x 7) (Nat.xor (rotr32 x 18) (x >>> 3))

/-- SHA-256 σ₁. -/
def sSig1 (x : Nat) : Nat := Nat.xor (rotr32 x 17) (Nat.xor (rotr32 x 19) (x >>> 10))

/-- The 64 SHA-256 round constants (FIPS 180-4 §4.2.2, in decimal). -/
def sha256K : List Nat :=
  [1116352408, 1899447441, 3049323471, 3921009573, 961987163,
   1508970993, 2453635748, 2870763221, 3624381080, 310598401,
   607225278, 1426881987, 1925078388, 2162078206, 2614888103,
   3248222580, 3835390401, 4022224774, 264347078, 604807628,
   770255983, 1249150122, 1555081692, 1996064986, 2554220882,
   2821834349, 2952996808, 3210313671, 3336571891, 3584528711,
   113926993, 338241895, 666307205, 773529912, 1294757372,
   1396182291, 1695183700, 1986661051, 2177026350, 2456956037,
   2730485921, 2820302411, 3259730800, 3345764771, 3516065817,
   3600352804, 4094571909, 275423344, 430227734, 506948616,
   659060556, 883997877, 958139571, 1322822218, 1537002063,
   1747873779, 1955562222, 2024104815, 2227730452, 2361852424,
   2428436474, 2756734187, 3204031479, 3329325298]

/-- The initial SHA-256 hash state (FIPS 180-4 §5.3.3, in decimal). -/
def sha256H0 : List Nat :=
  [1779033703, 3144134277, 1013904242, 2773480762,
   1359893119, 2600822924, 528734635, 1541459225]

/-- A `Nat` as 8 big-endian bytes. -/
def beBytes8 (n : Nat) : List Nat :=
  [(n >>> 56) % 256, (n >>> 48) % 256, (n >>> 40) % 256, (n >>> 32) % 256,
   (n >>> 24) % 256, (n >>> 16) % 256, (n >>> 8) % 256, n % 256]

/-- SHA-256 padding: 0x80, zeros, then the 64-bit big-endian bit length. -/
def sha256Pad (msg : List Nat) : List Nat :=
  msg ++ 0x80 :: List.replicate ((119 - msg.length % 64) % 64) 0 ++ beBytes8 (msg.length * 8)

/-- Fold the compression function over the 64-byte blocks of a padded
message.  The first argument is fuel bounding the number of blocks; it keeps
the recursion structural (the caller passes the padded length, which is
ample since every step consumes 64 bytes). -/
def sha256Blocks (compress : List Nat → List Nat → List Nat) :
    Nat → List Nat → List Nat → List Nat
  | 0, hs, _ => hs
  | _ + 1, hs, [] => hs
  | fuel + 1, hs, b :: rest =>
    sha256Blocks compress fuel (compress hs ((b :: rest).take 64)) ((b :: rest).drop 64)

/-- Extend a reversed message schedule by one word. -/
def schedStep (ws : List Nat) : List Nat :=
  w32 (sSig1 (ws.getD 1 0) + ws.getD 6 0 + sSig0 (ws.getD 14 0) + ws.getD 15 0) :: ws

/-- The 64-word message schedule of one 64-byte block. -/
def sha256Schedule (block : List Nat) : List Nat :=
  let w16 := (List.range 16).map fun i =>
    (block.getD (4 * i) 0) <<< 24 ||| (block.getD (4 * i + 1) 0) <<< 16 |||
    (block.getD (4 * i + 2) 0) <<< 8 ||| block.getD (4 * i + 3) 0
  ((List.range 48).foldl (fun acc _ => schedStep acc) w16.reverse).reverse

/-- One SHA-256 compression round on the 8-word working state. -/
def sha256Round (st : List Nat) (kw : Nat × Nat) : List Nat :=
  match st with
  | [a, b, c, d, e, f, g, h] =>
    let ch := Nat.xor (Nat.land e f) (Nat.land (Nat.xor e 4294967295) g)
    let maj := Nat.xor (Nat.land a b) (Nat.xor (Nat.land a c) (Nat.land b c))
    let t1 := w32 (h + bSig1 e + ch + kw.1 + kw.2)
    let t2 := w32 (bSig0 a + maj)
    [w32 (t1 + t2), a, b, c, w32 (d + t1), e, f, g]
  | other => other

/-- Process one 64-byte block. -/
def sha256Block (hs : List Nat) (block : List Nat) : List Nat :=
  let st := (sha256K.zip (sha256Schedule block)).foldl sha256Round hs
  (hs.zip st).map fun p => w32 (p.1 + p.2)

/-- SHA-256 of a byte list, as a 32-byte list. -/
def sha256 (msg : List Nat) : List Nat :=
  let padded := sha256Pad msg
  let hs := sha256Blocks sha256Block padded.length sha256H0 padded
  (hs.map fun w => [(w >>> 24) % 256, (w >>> 16) % 256, (w >>> 8) % 256, w % 256]).flatten

/-! ## crypto/cipher CTR mode over an abstract 16-byte block cipher -/

/-- Increment a little-endian byte list with carry (helper for `incBE`). -/
def incLE : List Nat → List Nat
  | [] => []
  | b :: rest => if b = 255 then 0 :: incLE rest else (b + 1) :: rest

/-- Increment a big-endian counter block by one (wrapping), as CTR does. -/
def incBE (l : List Nat) : List Nat := (incLE l.reverse).reverse

/-- The `n`-th counter block: the IV incremented `n` times. -/
def ctrBlock (iv : List Nat) : Nat → List Nat
  | 0 => iv
  | n + 1 => incBE (ctrBlock iv n)

/-- `ctr.XORKeyStream`: XOR `msg` against the keystream
`enc(iv), enc(iv+1), …`; the output has exactly `msg.length` bytes. -/
def ctrXorKeyStream (enc : List Nat → List Nat) (iv : List Nat) (msg : List Nat) : List Nat :=
  (List.range msg.length).map fun i =>
    Nat.xor (msg.getD i 0) ((enc (ctrBlock iv (i / 16))).getD (i % 16) 0)

/-! ## The decryption pipeline -/

/-- The abstract external crypto primitives: `scrypt.Key` (which can fail on
bad parameters), `pbkdf2.Key` (total), and the AES block encryption
`key ↦ block ↦ encrypted block` obtained from `aes.NewCipher`. -/
structure Crypto where
  scryptKey : List Nat → List Nat → Int → Int → Int → Int → Except Unit (List Nat)
  pbkdf2Key : List Nat → List Nat → Int → Int → List Nat
  aesEncBlock : List Nat → List Nat → List Nat

/-- The "Decryption key" block of `decryptNorm` (part_000 lines 60–86):
absent KDF uses the normalized passphrase verbatim; otherwise decode the
salt and dispatch on the KDF function.  Reading `kdfParams.Salt` through a
nil `Params` pointer is a Go panic. -/
def decryptionKeyFor (cr : Crypto) (ks : keystoreV4) (normedPassphrase : List Nat) :
    Outcome (List Nat) :=
  match ks.KDF with
  | none => .ok normedPassphrase
  | some kdf =>
    match kdf.Params with
    | none => .panicked nilDerefMsg
    | some kdfParams =>
      match hexDecode? kdfParams.Salt with
      | none => .err .invalidKDFSalt
      | some salt =>
        if kdf.Function = "scrypt" then
          match cr.scryptKey normedPassphrase salt kdfParams.N kdfParams.R kdfParams.P kdfParams.DKLen with
          | .error _ => .err .invalidKDFParams
          | .ok key => .ok key
        else if kdf.Function = "pbkdf2" then
          if kdfParams.PRF = "hmac-sha256" then
            .ok (cr.pbkdf2Key normedPassphrase salt kdfParams.C kdfParams.DKLen)
          else .err (.unsupportedPRF kdfParams.PRF)
        else .err (.unsupportedKDF kdf.Function)

/-- The "Decrypt" block of `decryptNorm` (part_000 lines 112–128): dispatch
on the cipher function.  For `aes-128-ctr` the AES key is the first 16 bytes
of the derived key; reading `ks.Cipher.Params.IV` through a nil `Params` is a
Go panic, and `cipher.NewCTR` panics when the decoded IV is not 16 bytes. -/
def decryptCipherStep (cr : Crypto) (ciph : ksCipher) (decryptionKey : List Nat)
    (cipherMsg : List Nat) : Outcome (List Nat) :=
  if ciph.Function = "aes-128-ctr" then
    match ciph.Params with
    | none => .panicked nilDerefMsg
    | some cipherParams =>
      match hexDecode? cipherParams.IV with
      | none => .err .invalidIV
      | some iv =>
        if iv.length = 16 then
          .ok (ctrXorKeyStream (cr.aesEncBlock (decryptionKey.take 16)) iv cipherMsg)
        else .panicked ctrPanicMsg
  else .err (.unsupportedCipher ciph.Function)

/-- `decryptNorm` (part_000 lines 59–131): derive the key, enforce the
32-byte minimum, verify the SHA-256 checksum over derived-key bytes
[16:32) followed by the ciphertext, then decrypt.  The nil dereferences of
`ks.Cipher` / `ks.Checksum` cannot fire when called from `Decrypt`, which
checks both for nil first. -/
def decryptNorm (cr : Crypto) (ks : keystoreV4) (normedPassphrase : List Nat) :
    Outcome (List Nat) :=
  match decryptionKeyFor cr ks normedPassphrase with
  | .panicked m => .panicked m
  | .err e => .err e
  | .ok decryptionKey =>
    if decryptionKey.length < 32 then .err .decryptionKeyTooShort
    else
      match ks.Cipher with
      | none => .panicked nilDerefMsg
      | some ciph =>
        match hexDecode? ciph.Message with
        | none => .err .invalidCipherMessage
        | some cipherMsg =>
          let checksum := sha256 ((decryptionKey.drop 16).take 16 ++ cipherMsg)
          match ks.Checksum with
          | none => .panicked nilDerefMsg
          | some cks =>
            match hexDecode? cks.Message with
            | none => .err .invalidChecksumMessage
            | some checksumMsg =>
              if checksum ≠ checksumMsg then .err .invalidChecksum
              else decryptCipherStep cr ciph decryptionKey cipherMsg

/-- `Decrypt` (part_000 lines 18–57).  The JSON `Marshal`/`Unmarshal` round
trip into `keystoreV4` is abstracted as `parseKeystore` over an arbitrary
input type `M` (both of its failure sites return the same
"failed to parse keystore" error).  `normPassphrase` and `altNormPassphrase`
are the two passphrase normalizers composed with `[]byte(·)`.  A failed
first attempt is discarded and the whole pipeline is retried with the
alternate normalization; a panic propagates. -/
def Decrypt {M : Type} (cr : Crypto)
    (normPassphrase altNormPassphrase : String → List Nat)
    (parseKeystore : M → Except Unit keystoreV4)
    (data : Option M) (passphrase : String) : Outcome (List Nat) :=
  match data with
  | none => .err .noData
  | some d =>
    match parseKeystore d with
    | .error _ => .err .parseFailed
    | .ok ks =>
      match ks.Checksum with
      | none => .err .noChecksum
      | some _ =>
        match ks.Cipher with
        | none => .err .noCipher
        | some _ =>
          match decryptNorm cr ks (normPassphrase passphrase) with
          | .ok res => .ok res
          | .panicked m => .panicked m
          | .err _ => decryptNorm cr ks (altNormPassphrase passphrase)

/-! ## Sanity checks of the library models and shared helpers -/

/-- `sha256` reproduces the standard test vector for the empty message. -/
theorem sha256_nil_vector :
    hexEncode (sha256 []) =
      "e3b0c44298fc1c149afbf4c8996fb92427ae41e4649b934ca495991b7852b855" := by decide

/-- `sha256` reproduces the standard test vector for "abc". -/
theorem sha256_abc_vector :
    hexEncode (sha256 [97, 98, 99]) =
      "ba7816bf8f01cfea414140de5dae2223b00361a396177a9cb410ff61f20015ad" := by decide

/-- CTR stream output always has the length of the input message. -/
theorem ctrXorKeyStream_length (enc : List Nat → List Nat) (iv msg : List Nat) :
    (ctrXorKeyStream enc iv msg).length = msg.length := by
  simp [ctrXorKeyStream]

/-- The cipher-dispatch step can never produce the checksum-mismatch error. -/
theorem decryptCipherStep_ne_invalidChecksum (cr : Crypto) (ciph : ksCipher)
    (key ct : List Nat) : decryptCipherStep cr ciph key ct ≠ .err .invalidChecksum := by
  rcases ciph with ⟨fn, ps, msg⟩
  by_cases hf : fn = "aes-128-ctr"
  · subst hf
    cases ps with
    | none => simp [decryptCipherStep]
    | some cp =>
      cases hiv : hexDecode? cp.IV with
      | none => simp [decryptCipherStep, hiv]
      | some iv =>
        by_cases hl : iv.length = 16 <;> simp [decryptCipherStep, hiv, hl]
  · simp [decryptCipherStep, hf]

/-- A concrete instantiation of the abstract external primitives, used to
evaluate the pipeline on concrete records. -/
def dummyCrypto : Crypto :=
  { scryptKey := fun _ _ _ _ _ _ => .ok []
    pbkdf2Key := fun _ _ _ _ => []
    aesEncBlock := fun _ _ => List.replicate 16 0 }

/-! ## Claims -/

/-- C1: if the full pipeline (`decryptNorm`) fails with an error under the
primary normalization, `Decrypt` discards that error and reruns the whole
pipeline under the alternate/legacy normalization; if that retry also fails,
the caller gets exactly the retry's error, never the first attempt's. -/
theorem c1_retry_returns_second_error {M : Type} (cr : Crypto)
    (nP aP : String → List Nat) (parse : M → Except Unit keystoreV4)
    (d : M) (pass : String) (ks : keystoreV4) (c : ksChecksum) (k : ksCipher)
    (e1 e2 : KsErr)
    (hp : parse d = .ok ks) (hc : ks.Checksum = some c) (hk : ks.Cipher = some k)
    (h1 : decryptNorm cr ks (nP pass) = .err e1)
    (h2 : decryptNorm cr ks (aP pass) = .err e2) :
    Decrypt cr nP aP parse (some d) pass = decryptNorm cr ks (aP pass) ∧
    Decrypt cr nP aP parse (some d) pass = .err e2 := by
  simp [Decrypt, hp, hc, hk, h1, h2]

/-- Record used to exercise the C1 retry path: an unsupported KDF function
makes both normalization attempts fail with the same typed error. -/
def c1Rec : keystoreV4 :=
  { KDF := some { Function := "foo"
                  Params := some { Salt := "", DKLen := 32, N := 0, P := 0, R := 0, C := 0, PRF := "" }
                  Message := "" }
    Checksum := some { Function := "sha256", Message := "" }
    Cipher := some { Function := "aes-128-ctr", Params := some { IV := "" }, Message := "" } }

/-- Witness for C1 at a concrete record and passphrase. -/
theorem c1_retry_returns_second_error_witness :
    Decrypt dummyCrypto (fun _ => []) (fun _ => []) (fun _ : Unit => .ok c1Rec)
      (some ()) "p" = .err (.unsupportedKDF "foo") :=
  (c1_retry_returns_second_error dummyCrypto (fun _ => []) (fun _ => [])
    (fun _ : Unit => .ok c1Rec) () "p" c1Rec ⟨"sha256", ""⟩
    ⟨"aes-128-ctr", some ⟨""⟩, ""⟩ (.unsupportedKDF "foo") (.unsupportedKDF "foo")
    rfl rfl rfl (by decide) (by decide)).2

/-- C6: whenever key derivation succeeds with a key shorter than 32 bytes,
`decryptNorm` fails with the derived-key-too-short error; the check sits
after derivation and before the checksum and cipher stages (the record's
checksum and cipher contents — even absent ones — are irrelevant). -/
theorem c6_short_derived_key (cr : Crypto) (ks : keystoreV4) (np key : List Nat)
    (hkey : decryptionKeyFor cr ks np = .ok key) (hlen : key.length < 32) :
    decryptNorm cr ks np = .err .decryptionKeyTooShort := by
  simp [decryptNorm, hkey, hlen]

/-- Witness for C6: absent KDF and an empty passphrase, on a record with no
checksum and no cipher sub-record at all. -/
theorem c6_short_derived_key_witness :
    decryptNorm dummyCrypto ⟨none, none, none⟩ [] = .err .decryptionKeyTooShort :=
  c6_short_derived_key dummyCrypto ⟨none, none, none⟩ [] [] rfl (by decide)

/-- C7: structural failures are decided before any normalization or KDF work
and are never retried: nil input gives the no-data error; a failed re-encode/
decode gives the parse error; a parsed record missing its checksum (resp.
cipher) sub-record gives the corresponding error — for every pair of
normalizers, every passphrase, and regardless of the `KDF` field. -/
theorem c7_structural_errors :
    (∀ (M : Type) (cr : Crypto) (nP aP : String → List Nat)
       (parse : M → Except Unit keystoreV4) (pass : String),
       Decrypt cr nP aP parse none pass = .err .noData) ∧
    (∀ (M : Type) (cr : Crypto) (nP aP : String → List Nat)
       (parse : M → Except Unit keystoreV4) (d : M) (pass : String),
       parse d = .error () → Decrypt cr nP aP parse (some d) pass = .err .parseFailed) ∧
    (∀ (M : Type) (cr : Crypto) (nP aP : String → List Nat)
       (parse : M → Except Unit keystoreV4) (d : M) (pass : String) (ks : keystoreV4),
       parse d = .ok ks → ks.Checksum = none →
       Decrypt cr nP aP parse (some d) pass = .err .noChecksum) ∧
    (∀ (M : Type) (cr : Crypto) (nP aP : String → List Nat)
       (parse : M → Except Unit keystoreV4) (d : M) (pass : String)
       (ks : keystoreV4) (c : ksChecksum),
       parse d = .ok ks → ks.Checksum = some c → ks.Cipher = none →
       Decrypt cr nP aP parse (some d) pass = .err .noCipher) := by
  refine ⟨?_, ?_, ?_, ?_⟩ <;> intros <;> simp_all [Decrypt]

/-- Witness for C7: all four structural errors at concrete inputs; the last
two records carry a `KDF` sub-record to show it is not consulted. -/
theorem c7_structural_errors_witness :
    Decrypt dummyCrypto (fun _ => []) (fun _ => [])
      (fun _ : Unit => .error ()) none "p" = .err .noData ∧
    Decrypt dummyCrypto (fun _ => []) (fun _ => [])
      (fun _ : Unit => .error ()) (some ()) "p" = .err .parseFailed ∧
    Decrypt dummyCrypto (fun _ => []) (fun _ => [])
      (fun _ : Unit => .ok ⟨some ⟨"scrypt", none, ""⟩, none, none⟩)
      (some ()) "p" = .err .noChecksum ∧
    Decrypt dummyCrypto (fun _ => []) (fun _ => [])
      (fun _ : Unit => .ok ⟨some ⟨"scrypt", none, ""⟩, some ⟨"sha256", ""⟩, none⟩)
      (some ()) "p" = .err .noCipher :=
  ⟨c7_structural_errors.1 Unit dummyCrypto (fun _ => []) (fun _ => [])
      (fun _ : Unit => .error ()) "p",
   c7_structural_errors.2.1 Unit dummyCrypto (fun _ => []) (fun _ => [])
      (fun _ : Unit => .error ()) () "p" rfl,
   c7_structural_errors.2.2.1 Unit dummyCrypto (fun _ => []) (fun _ => [])
      (fun _ : Unit => .ok ⟨some ⟨"scrypt", none, ""⟩, none, none⟩) () "p"
      ⟨some ⟨"scrypt", none, ""⟩, none, none⟩ rfl rfl,
   c7_structural_errors.2.2.2 Unit dummyCrypto (fun _ => []) (fun _ => [])
      (fun _ : Unit => .ok ⟨some ⟨"scrypt", none, ""⟩, some ⟨"sha256", ""⟩, none⟩) () "p"
      ⟨some ⟨"scrypt", none, ""⟩, some ⟨"sha256", ""⟩, none⟩ ⟨"sha256", ""⟩ rfl rfl rfl⟩

/-- C2: once a ≥32-byte key is derived and the cipher/checksum messages
hex-decode, the pipeline's digest is SHA-256 of derived-key bytes [16:32)
followed by the ciphertext, and checksum verification rejects (with the
checksum-mismatch error) exactly when that digest differs from the decoded
stored checksum. -/
theorem c2_checksum_sha256_iff (cr : Crypto) (ks : keystoreV4) (np key : List Nat)
    (ciph : ksCipher) (cks : ksChecksum) (ct ckmsg : List Nat)
    (hkey : decryptionKeyFor cr ks np = .ok key)
    (hlen : 32 ≤ key.length)
    (hciph : ks.Cipher = some ciph)
    (hct : hexDecode? ciph.Message = some ct)
    (hcks : ks.Checksum = some cks)
    (hcm : hexDecode? cks.Message = some ckmsg) :
    decryptNorm cr ks np = .err .invalidChecksum ↔
      sha256 ((key.drop 16).take 16 ++ ct) ≠ ckmsg := by
  have hnl : ¬ key.length < 32 := by omega
  by_cases h : sha256 ((key.drop 16).take 16 ++ ct) = ckmsg
  · simp [decryptNorm, hkey, hnl, hciph, hct, hcks, hcm, h,
      decryptCipherStep_ne_invalidChecksum]
  · simp [decryptNorm, hkey, hnl, hciph, hct, hcks, hcm, h]

/-- Record for the C2 witness: absent KDF, ciphertext `[1, 2, 3]`, and a
stored checksum (`[0]`) that cannot equal any SHA-256 digest. -/
def c2Rec : keystoreV4 :=
  { KDF := none
    Checksum := some { Function := "sha256", Message := "00" }
    Cipher := some { Function := "aes-128-ctr", Params := some { IV := "" }, Message := "010203" } }

/-- Witness for C2 at a concrete record and key. -/
theorem c2_checksum_sha256_iff_witness :
    decryptNorm dummyCrypto c2Rec (List.range 32) = .err .invalidChecksum :=
  (c2_checksum_sha256_iff dummyCrypto c2Rec (List.range 32) (List.range 32)
    ⟨"aes-128-ctr", some ⟨""⟩, "010203"⟩ ⟨"sha256", "00"⟩ [1, 2, 3] [0]
    rfl (by decide) rfl (by decide) rfl (by decide)).mpr (by decide)

/-- C3: a checksum mismatch is reported before the cipher is even looked at:
under the same reachability hypotheses as C2, a digest that differs from the
stored checksum makes `decryptNorm` return the checksum-mismatch error for
every cipher sub-record whatsoever (its function may be unsupported, its
params absent), so no plaintext is ever produced past a failed checksum. -/
theorem c3_mismatch_precedes_cipher_dispatch (cr : Crypto) (ks : keystoreV4)
    (np key : List Nat) (ciph : ksCipher) (cks : ksChecksum) (ct ckmsg : List Nat)
    (hkey : decryptionKeyFor cr ks np = .ok key)
    (hlen : 32 ≤ key.length)
    (hciph : ks.Cipher = some ciph)
    (hct : hexDecode? ciph.Message = some ct)
    (hcks : ks.Checksum = some cks)
    (hcm : hexDecode? cks.Message = some ckmsg)
    (hne : sha256 ((key.drop 16).take 16 ++ ct) ≠ ckmsg) :
    decryptNorm cr ks np = .err .invalidChecksum := by
  have hnl : ¬ key.length < 32 := by omega
  simp [decryptNorm, hkey, hnl, hciph, hct, hcks, hcm, hne]

/-- Record for the C3 witness: wrong checksum together with an unsupported
cipher function and a nil cipher-params pointer. -/
def c3Rec : keystoreV4 :=
  { KDF := none
    Checksum := some { Function := "sha256", Message := "00" }
    Cipher := some { Function := "totally-unsupported", Params := none, Message := "" } }

/-- Witness for C3: the checksum error wins over the unsupported cipher. -/
theorem c3_mismatch_precedes_cipher_dispatch_witness :
    decryptNorm dummyCrypto c3Rec (List.range 32) = .err .invalidChecksum :=
  c3_mismatch_precedes_cipher_dispatch dummyCrypto c3Rec (List.range 32) (List.range 32)
    ⟨"totally-unsupported", none, ""⟩ ⟨"sha256", "00"⟩ [] [0]
    rfl (by decide) rfl (by decide) rfl (by decide) (by decide)

/-- C8: on the aes-128-ctr branch with a verified checksum, an IV that fails
hex-decoding yields the invalid-IV error, and otherwise (decoded 16-byte IV)
the result is CTR decryption keyed by exactly the first 16 bytes of the
derived key with that IV, whose output length equals the ciphertext length. -/
theorem c8_aes128ctr_shape (cr : Crypto) (ks : keystoreV4) (np key : List Nat)
    (ciph : ksCipher) (cp : ksCipherParams) (cks : ksChecksum) (ct ckmsg : List Nat)
    (hkey : decryptionKeyFor cr ks np = .ok key)
    (hlen : 32 ≤ key.length)
    (hciph : ks.Cipher = some ciph)
    (hct : hexDecode? ciph.Message = some ct)
    (hcks : ks.Checksum = some cks)
    (hcm : hexDecode? cks.Message = some ckmsg)
    (hsum : sha256 ((key.drop 16).take 16 ++ ct) = ckmsg)
    (hfun : ciph.Function = "aes-128-ctr")
    (hcp : ciph.Params = some cp) :
    (hexDecode? cp.IV = none → decryptNorm cr ks np = .err .invalidIV) ∧
    (∀ iv, hexDecode? cp.IV = some iv → iv.length = 16 →
      decryptNorm cr ks np =
        .ok (ctrXorKeyStream (cr.aesEncBlock (key.take 16)) iv ct) ∧
      (ctrXorKeyStream (cr.aesEncBlock (key.take 16)) iv ct).length = ct.length) := by
  have hnl : ¬ key.length < 32 := by omega
  constructor
  · intro hiv
    simp [decryptNorm, hkey, hnl, hciph, hct, hcks, hcm, hsum,
      decryptCipherStep, hfun, hcp, hiv]
  · intro iv hiv hl
    refine ⟨?_, ctrXorKeyStream_length _ _ _⟩
    simp [decryptNorm, hkey, hnl, hciph, hct, hcks, hcm, hsum,
      decryptCipherStep, hfun, hcp, hiv, hl]

/-- Record for the C8 invalid-IV branch: matching checksum, IV not hex. -/
def c8RecA : keystoreV4 :=
  { KDF := none
    Checksum := some { Function := "sha256"
                       Message := hexEncode (sha256 (((List.range 32).drop 16).take 16 ++ [1, 2, 3])) }
    Cipher := some { Function := "aes-128-ctr", Params := some { IV := "zz" }, Message := "010203" } }

/-- Record for the C8 success branch: matching checksum, all-zero 16-byte IV. -/
def c8RecB : keystoreV4 :=
  { KDF := none
    Checksum := some { Function := "sha256"
                       Message := hexEncode (sha256 (((List.range 32).drop 16).take 16 ++ [1, 2, 3])) }
    Cipher := some { Function := "aes-128-ctr"
                     Params := some { IV := "00000000000000000000000000000000" }
                     Message := "010203" } }

/-- Witness for C8: both branches at concrete records. -/
theorem c8_aes128ctr_shape_witness :
    decryptNorm dummyCrypto c8RecA (List.range 32) = .err .invalidIV ∧
    decryptNorm dummyCrypto c8RecB (List.range 32) =
      .ok (ctrXorKeyStream (dummyCrypto.aesEncBlock ((List.range 32).take 16))
        (List.replicate 16 0) [1, 2, 3]) ∧
    (ctrXorKeyStream (dummyCrypto.aesEncBlock ((List.range 32).take 16))
        (List.replicate 16 0) [1, 2, 3]).length = [1, 2, 3].length :=
  have hA := c8_aes128ctr_shape dummyCrypto c8RecA (List.range 32) (List.range 32)
    ⟨"aes-128-ctr", some ⟨"zz"⟩, "010203"⟩ ⟨"zz"⟩
    ⟨"sha256", hexEncode (sha256 (((List.range 32).drop 16).take 16 ++ [1, 2, 3]))⟩
    [1, 2, 3] (sha256 (((List.range 32).drop 16).take 16 ++ [1, 2, 3]))
    rfl (by decide) rfl (by decide) rfl (by decide) rfl rfl rfl
  have hB := c8_aes128ctr_shape dummyCrypto c8RecB (List.range 32) (List.range 32)
    ⟨"aes-128-ctr", some ⟨"00000000000000000000000000000000"⟩, "010203"⟩
    ⟨"00000000000000000000000000000000"⟩
    ⟨"sha256", hexEncode (sha256 (((List.range 32).drop 16).take 16 ++ [1, 2, 3]))⟩
    [1, 2, 3] (sha256 (((List.range 32).drop 16).take 16 ++ [1, 2, 3]))
    rfl (by decide) rfl (by decide) rfl (by decide) rfl rfl rfl
  ⟨hA.1 (by decide),
   (hB.2 (List.replicate 16 0) (by decide) (by decide)).1,
   (hB.2 (List.replicate 16 0) (by decide) (by decide)).2⟩

/-- C9: a nil `params` pointer is dereferenced, not reported: with `kdf`
present but its `params` nil, reading the salt panics (for every KDF
function); with a verified checksum, cipher function aes-128-ctr but nil
cipher `params`, reading the IV panics; and `Decrypt` propagates any panic
of the first attempt instead of returning a typed error. -/
theorem c9_nil_params_panics :
    (∀ (cr : Crypto) (ks : keystoreV4) (np : List Nat) (kdf : ksKDF),
       ks.KDF = some kdf → kdf.Params = none →
       decryptNorm cr ks np = .panicked nilDerefMsg) ∧
    (∀ (cr : Crypto) (ks : keystoreV4) (np key : List Nat) (ciph : ksCipher)
       (cks : ksChecksum) (ct ckmsg : List Nat),
       decryptionKeyFor cr ks np = .ok key → 32 ≤ key.length →
       ks.Cipher = some ciph → hexDecode? ciph.Message = some ct →
       ks.Checksum = some cks → hexDecode? cks.Message = some ckmsg →
       sha256 ((key.drop 16).take 16 ++ ct) = ckmsg →
       ciph.Function = "aes-128-ctr" → ciph.Params = none →
       decryptNorm cr ks np = .panicked nilDerefMsg) ∧
    (∀ (M : Type) (cr : Crypto) (nP aP : String → List Nat)
       (parse : M → Except Unit keystoreV4) (d : M) (pass : String)
       (ks : keystoreV4) (c : ksChecksum) (k : ksCipher) (m : String),
       parse d = .ok ks → ks.Checksum = some c → ks.Cipher = some k →
       decryptNorm cr ks (nP pass) = .panicked m →
       Decrypt cr nP aP parse (some d) pass = .panicked m) := by
  refine ⟨?_, ?_, ?_⟩
  · intro cr ks np kdf hk hp
    simp [decryptNorm, decryptionKeyFor, hk, hp]
  · intro cr ks np key ciph cks ct ckmsg hkey hlen hciph hct hcks hcm hsum hfun hcp
    have hnl : ¬ key.length < 32 := by omega
    simp [decryptNorm, hkey, hnl, hciph, hct, hcks, hcm, hsum,
      decryptCipherStep, hfun, hcp]
  · intro M cr nP aP parse d pass ks c k m hp hc hk hdn
    simp [Decrypt, hp, hc, hk, hdn]

/-- C9 record with `kdf` present and a nil `params` pointer. -/
def c9RecA : keystoreV4 :=
  { KDF := some { Function := "scrypt", Params := none, Message := "" }
    Checksum := some { Function := "sha256", Message := "" }
    Cipher := some { Function := "aes-128-ctr", Params := some { IV := "" }, Message := "" } }

/-- C9 record passing the checksum with a nil cipher `params` pointer. -/
def c9RecB : keystoreV4 :=
  { KDF := none
    Checksum := some { Function := "sha256"
                       Message := hexEncode (sha256 (((List.range 32).drop 16).take 16 ++ [])) }
    Cipher := some { Function := "aes-128-ctr", Params := none, Message := "" } }

/-- Witness for C9: both nil-pointer panics, and the panic escaping from
`Decrypt` itself. -/
theorem c9_nil_params_panics_witness :
    decryptNorm dummyCrypto c9RecA [] = .panicked nilDerefMsg ∧
    decryptNorm dummyCrypto c9RecB (List.range 32) = .panicked nilDerefMsg ∧
    Decrypt dummyCrypto (fun _ => []) (fun _ => []) (fun _ : Unit => .ok c9RecA)
      (some ()) "p" = .panicked nilDerefMsg :=
  have h1 := c9_nil_params_panics.1 dummyCrypto c9RecA []
    ⟨"scrypt", none, ""⟩ rfl rfl
  ⟨h1,
   c9_nil_params_panics.2.1 dummyCrypto c9RecB (List.range 32) (List.range 32)
     ⟨"aes-128-ctr", none, ""⟩
     ⟨"sha256", hexEncode (sha256 (((List.range 32).drop 16).take 16 ++ []))⟩
     [] (sha256 (((List.range 32).drop 16).take 16 ++ []))
     rfl (by decide) rfl rfl rfl (by decide) rfl rfl rfl,
   c9_nil_params_panics.2.2 Unit dummyCrypto (fun _ => []) (fun _ => [])
     (fun _ : Unit => .ok c9RecA) () "p" c9RecA ⟨"sha256", ""⟩
     ⟨"aes-128-ctr", some ⟨""⟩, ""⟩ nilDerefMsg rfl rfl rfl h1⟩

/-- C10: the decoded IV's length is never validated: with a verified
checksum on the aes-128-ctr branch, a valid-hex IV whose decoded length is
not 16 makes `cipher.NewCTR` panic — `decryptNorm` panics rather than
returning the invalid-IV error, and the panic escapes through `Decrypt`. -/
theorem c10_wrong_length_iv_panics (cr : Crypto) (ks : keystoreV4) (np key : List Nat)
    (ciph : ksCipher) (cp : ksCipherParams) (cks : ksChecksum) (ct ckmsg iv : List Nat)
    (hkey : decryptionKeyFor cr ks np = .ok key)
    (hlen : 32 ≤ key.length)
    (hciph : ks.Cipher = some ciph)
    (hct : hexDecode? ciph.Message = some ct)
    (hcks : ks.Checksum = some cks)
    (hcm : hexDecode? cks.Message = some ckmsg)
    (hsum : sha256 ((key.drop 16).take 16 ++ ct) = ckmsg)
    (hfun : ciph.Function = "aes-128-ctr")
    (hcp : ciph.Params = some cp)
    (hiv : hexDecode? cp.IV = some iv)
    (hl : iv.length ≠ 16) :
    decryptNorm cr ks np = .panicked ctrPanicMsg ∧
    decryptNorm cr ks np ≠ .err .invalidIV ∧
    (∀ (M : Type) (nP aP : String → List Nat) (parse : M → Except Unit keystoreV4)
       (d : M) (pass : String),
       parse d = .ok ks → nP pass = np →
       Decrypt cr nP aP parse (some d) pass = .panicked ctrPanicMsg) := by
  have hnl : ¬ key.length < 32 := by omega
  have h1 : decryptNorm cr ks np = .panicked ctrPanicMsg := by
    simp [decryptNorm, hkey, hnl, hciph, hct, hcks, hcm, hsum,
      decryptCipherStep, hfun, hcp, hiv, hl]
  refine ⟨h1, by simp [h1], ?_⟩
  intro M nP aP parse d pass hp hnp
  simp [Decrypt, hp, hcks, hciph, hnp, h1]

/-- C10 record: matching checksum, aes-128-ctr, valid-hex 15-byte IV. -/
def c10Rec : keystoreV4 :=
  { KDF := none
    Checksum := some { Function := "sha256"
                       Message := hexEncode (sha256 (((List.range 32).drop 16).take 16 ++ [])) }
    Cipher := some { Function := "aes-128-ctr"
                     Params := some { IV := "000000000000000000000000000000" }
                     Message := "" } }

/-- Witness for C10: the panic at a concrete record, inside `decryptNorm`
and escaping from `Decrypt`. -/
theorem c10_wrong_length_iv_panics_witness :
    decryptNorm dummyCrypto c10Rec (List.range 32) = .panicked ctrPanicMsg ∧
    Decrypt dummyCrypto (fun _ => List.range 32) (fun _ => []) (fun _ : Unit => .ok c10Rec)
      (some ()) "p" = .panicked ctrPanicMsg :=
  have h := c10_wrong_length_iv_panics dummyCrypto c10Rec (List.range 32) (List.range 32)
    ⟨"aes-128-ctr", some ⟨"000000000000000000000000000000"⟩, ""⟩
    ⟨"000000000000000000000000000000"⟩
    ⟨"sha256", hexEncode (sha256 (((List.range 32).drop 16).take 16 ++ []))⟩
    [] (sha256 (((List.range 32).drop 16).take 16 ++ [])) (List.replicate 15 0)
    rfl (by decide) rfl rfl rfl (by decide) rfl rfl rfl (by decide) (by decide)
  ⟨h.1, h.2.2 Unit (fun _ => List.range 32) (fun _ => [])
    (fun _ : Unit => .ok c10Rec) () "p" rfl rfl⟩

/-- Counterexample record for C4: `kdf` absent, a 32-byte passphrase, a
matching checksum — yet decryption fails, because the cipher function is not
aes-128-ctr.  This refutes "decryption succeeds iff the passphrase bytes are
at least 32 bytes long and the checksum matches" as quantified over every
kdf-absent record. -/
def c4CexRec : keystoreV4 :=
  { KDF := none
    Checksum := some { Function := "sha256"
                       Message := hexEncode (sha256 (((List.range 32).drop 16).take 16 ++ [])) }
    Cipher := some { Function := "unsupported-fn", Params := some { IV := "" }, Message := "" } }

/-- C4 counterexample: every side condition of the claim holds (kdf absent,
32-byte passphrase, stored checksum decodes to exactly the pipeline's
digest), yet `decryptNorm` errs instead of succeeding. -/
theorem c4_counterexample :
    c4CexRec.KDF = none ∧
    (List.range 32).length = 32 ∧
    c4CexRec.Checksum =
      some ⟨"sha256", hexEncode (sha256 (((List.range 32).drop 16).take 16 ++ []))⟩ ∧
    hexDecode? (hexEncode (sha256 (((List.range 32).drop 16).take 16 ++ []))) =
      some (sha256 (((List.range 32).drop 16).take 16 ++ [])) ∧
    hexDecode? "" = some [] ∧
    decryptNorm dummyCrypto c4CexRec (List.range 32) =
      .err (.unsupportedCipher "unsupported-fn") :=
  ⟨rfl, by decide, rfl, by decide, rfl, by decide⟩

/-- C4 (amended): with `kdf` absent the decryption key is the normalized
passphrase verbatim (no derivation, not an error), and — provided the record
is otherwise well-formed (cipher function aes-128-ctr, params present, a
16-byte valid-hex IV, valid-hex cipher and checksum messages) — decryption
succeeds iff the passphrase bytes are ≥ 32 bytes and the checksum matches. -/
theorem c4_absent_kdf_amended (cr : Crypto) (ks : keystoreV4) (np : List Nat)
    (ciph : ksCipher) (cp : ksCipherParams) (cks : ksChecksum) (ct ckmsg iv : List Nat)
    (hkdf : ks.KDF = none)
    (hciph : ks.Cipher = some ciph)
    (hfun : ciph.Function = "aes-128-ctr")
    (hcp : ciph.Params = some cp)
    (hiv : hexDecode? cp.IV = some iv)
    (hl : iv.length = 16)
    (hct : hexDecode? ciph.Message = some ct)
    (hcks : ks.Checksum = some cks)
    (hcm : hexDecode? cks.Message = some ckmsg) :
    decryptionKeyFor cr ks np = .ok np ∧
    ((∃ res, decryptNorm cr ks np = .ok res) ↔
      (32 ≤ np.length ∧ sha256 ((np.drop 16).take 16 ++ ct) = ckmsg)) := by
  have hk : decryptionKeyFor cr ks np = .ok np := by simp [decryptionKeyFor, hkdf]
  refine ⟨hk, ?_⟩
  by_cases hlen : np.length < 32
  · have hdn : decryptNorm cr ks np = .err .decryptionKeyTooShort := by
      simp [decryptNorm, hk, hlen]
    constructor
    · rintro ⟨res, hres⟩
      rw [hdn] at hres
      cases hres
    · rintro ⟨h32, _⟩
      omega
  · by_cases hsum : sha256 ((np.drop 16).take 16 ++ ct) = ckmsg
    · have hdn : decryptNorm cr ks np =
          .ok (ctrXorKeyStream (cr.aesEncBlock (np.take 16)) iv ct) := by
        simp [decryptNorm, hk, hlen, hciph, hct, hcks, hcm, hsum,
          decryptCipherStep, hfun, hcp, hiv, hl]
      exact ⟨fun _ => ⟨by omega, hsum⟩, fun _ => ⟨_, hdn⟩⟩
    · have hdn : decryptNorm cr ks np = .err .invalidChecksum := by
        simp [decryptNorm, hk, hlen, hciph, hct, hcks, hcm, hsum]
      constructor
      · rintro ⟨res, hres⟩
        rw [hdn] at hres
        cases hres
      · rintro ⟨_, hs⟩
        exact absurd hs hsum

/-- Well-formed kdf-absent record for the C4 witness. -/
def c4OkRec : keystoreV4 :=
  { KDF := none
    Checksum := some { Function := "sha256"
                       Message := hexEncode (sha256 (((List.range 32).drop 16).take 16 ++ [1, 2, 3])) }
    Cipher := some { Function := "aes-128-ctr"
                     Params := some { IV := "00000000000000000000000000000000" }
                     Message := "010203" } }

/-- Witness for the amended C4: the passphrase is the key, and decryption
succeeds on a well-formed record with a matching checksum. -/
theorem c4_absent_kdf_amended_witness :
    decryptionKeyFor dummyCrypto c4OkRec (List.range 32) = .ok (List.range 32) ∧
    (∃ res, decryptNorm dummyCrypto c4OkRec (List.range 32) = .ok res) :=
  have h := c4_absent_kdf_amended dummyCrypto c4OkRec (List.range 32)
    ⟨"aes-128-ctr", some ⟨"00000000000000000000000000000000"⟩, "010203"⟩
    ⟨"00000000000000000000000000000000"⟩
    ⟨"sha256", hexEncode (sha256 (((List.range 32).drop 16).take 16 ++ [1, 2, 3]))⟩
    [1, 2, 3] (sha256 (((List.range 32).drop 16).take 16 ++ [1, 2, 3])) (List.replicate 16 0)
    rfl rfl rfl rfl (by decide) (by decide) (by decide) rfl (by decide)
  ⟨h.1, h.2.mpr ⟨by decide, rfl⟩⟩

/-- Counterexample record for C5: kdf function "foo" (neither scrypt nor
pbkdf2) but an invalid-hex salt. -/
def c5CexRec : keystoreV4 :=
  { KDF := some { Function := "foo"
                  Params := some { Salt := "zz", DKLen := 32, N := 0, P := 0, R := 0, C := 0, PRF := "" }
                  Message := "" }
    Checksum := some { Function := "sha256", Message := "" }
    Cipher := some { Function := "aes-128-ctr", Params := some { IV := "" }, Message := "" } }

/-- C5 counterexample: with `kdf.function = "foo"` the pipeline does NOT
fail with the unsupported-KDF error naming "foo" — the salt is hex-decoded
first, so an invalid salt yields the invalid-KDF-salt error instead. -/
theorem c5_counterexample :
    c5CexRec.KDF = some ⟨"foo", some ⟨"zz", 32, 0, 0, 0, 0, ""⟩, ""⟩ ∧
    ("foo" ≠ "scrypt" ∧ "foo" ≠ "pbkdf2") ∧
    decryptNorm dummyCrypto c5CexRec [] = .err .invalidKDFSalt ∧
    KsErr.invalidKDFSalt ≠ .unsupportedKDF "foo" :=
  ⟨rfl, by decide, by decide, by decide⟩

/-- C5 (amended): unknown identifiers are rejected with errors naming them,
provided the stages before the dispatch succeed — for the KDF and PRF cases
the `params` sub-record must be present and its salt valid hex (salt
decoding precedes the function dispatch), and for the cipher case the
checksum must verify. -/
theorem c5_unsupported_ids_amended :
    (∀ (cr : Crypto) (ks : keystoreV4) (np : List Nat) (kdf : ksKDF)
       (kp : ksKDFParams) (salt : List Nat),
       ks.KDF = some kdf → kdf.Params = some kp → hexDecode? kp.Salt = some salt →
       kdf.Function ≠ "scrypt" → kdf.Function ≠ "pbkdf2" →
       decryptNorm cr ks np = .err (.unsupportedKDF kdf.Function)) ∧
    (∀ (cr : Crypto) (ks : keystoreV4) (np : List Nat) (kdf : ksKDF)
       (kp : ksKDFParams) (salt : List Nat),
       ks.KDF = some kdf → kdf.Params = some kp → hexDecode? kp.Salt = some salt →
       kdf.Function = "pbkdf2" → kp.PRF ≠ "hmac-sha256" →
       decryptNorm cr ks np = .err (.unsupportedPRF kp.PRF)) ∧
    (∀ (cr : Crypto) (ks : keystoreV4) (np key : List Nat) (ciph : ksCipher)
       (cks : ksChecksum) (ct ckmsg : List Nat),
       decryptionKeyFor cr ks np = .ok key → 32 ≤ key.length →
       ks.Cipher = some ciph → hexDecode? ciph.Message = some ct →
       ks.Checksum = some cks → hexDecode? cks.Message = some ckmsg →
       sha256 ((key.drop 16).take 16 ++ ct) = ckmsg →
       ciph.Function ≠ "aes-128-ctr" →
       decryptNorm cr ks np = .err (.unsupportedCipher ciph.Function)) := by
  refine ⟨?_, ?_, ?_⟩
  · intro cr ks np kdf kp salt hk hp hsalt hf1 hf2
    simp [decryptNorm, decryptionKeyFor, hk, hp, hsalt, hf1, hf2]
  · intro cr ks np kdf kp salt hk hp hsalt hf hprf
    simp [decryptNorm, decryptionKeyFor, hk, hp, hsalt, hf, hprf]
  · intro cr ks np key ciph cks ct ckmsg hkey hlen hciph hct hcks hcm hsum hfun
    have hnl : ¬ key.length < 32 := by omega
    simp [decryptNorm, hkey, hnl, hciph, hct, hcks, hcm, hsum,
      decryptCipherStep, hfun]

/-- Record with an unknown KDF function and a valid salt. -/
def c5RecA : keystoreV4 :=
  { KDF := some { Function := "foo"
                  Params := some { Salt := "", DKLen := 32, N := 0, P := 0, R := 0, C := 0, PRF := "" }
                  Message := "" }
    Checksum := none
    Cipher := none }

/-- Record with pbkdf2 and an unknown PRF. -/
def c5RecB : keystoreV4 :=
  { KDF := some { Function := "pbkdf2"
                  Params := some { Salt := "", DKLen := 32, N := 0, P := 0, R := 0, C := 0, PRF := "bar" }
                  Message := "" }
    Checksum := none
    Cipher := none }

/-- Record with a matching checksum and an unknown cipher function. -/
def c5RecC : keystoreV4 :=
  { KDF := none
    Checksum := some { Function := "sha256"
                       Message := hexEncode (sha256 (((List.range 32).drop 16).take 16 ++ [])) }
    Cipher := some { Function := "baz", Params := none, Message := "" } }

/-- Witness for the amended C5: all three unsupported-identifier errors at
concrete records, each naming the offending identifier. -/
theorem c5_unsupported_ids_amended_witness :
    decryptNorm dummyCrypto c5RecA [] = .err (.unsupportedKDF "foo") ∧
    decryptNorm dummyCrypto c5RecB [] = .err (.unsupportedPRF "bar") ∧
    decryptNorm dummyCrypto c5RecC (List.range 32) = .err (.unsupportedCipher "baz") :=
  ⟨c5_unsupported_ids_amended.1 dummyCrypto c5RecA []
     ⟨"foo", some ⟨"", 32, 0, 0, 0, 0, ""⟩, ""⟩ ⟨"", 32, 0, 0, 0, 0, ""⟩ []
     rfl rfl rfl (by decide) (by decide),
   c5_unsupported_ids_amended.2.1 dummyCrypto c5RecB []
     ⟨"pbkdf2", some ⟨"", 32, 0, 0, 0, 0, "bar"⟩, ""⟩ ⟨"", 32, 0, 0, 0, 0, "bar"⟩ []
     rfl rfl rfl rfl (by decide),
   c5_unsupported_ids_amended.2.2 dummyCrypto c5RecC (List.range 32) (List.range 32)
     ⟨"baz", none, ""⟩
     ⟨"sha256", hexEncode (sha256 (((List.range 32).drop 16).take 16 ++ []))⟩
     [] (sha256 (((List.range 32).drop 16).take 16 ++ []))
     rfl (by decide) rfl rfl rfl (by decide) rfl (by decide)⟩

end Cryptor
